import Mathlib

/-!
# Concert-venue management: shallow embedding and verification

This file embeds, in Lean 4, the seat/ticket core of the concert-venue
management repository: the venue layout generator and its seat-number
validator (server/config/venue.ts), the in-memory entity store with its
atomic seat assignment (server/storage.ts, `MemStorage`), the Google-Sheets
backed store's seat assignment (server/storage/google-sheets.ts,
`GoogleSheetsStorage.assignSeatAtomically`) under an explicit
failure-injection model for its network calls, and the route handlers for
check-in, QR scan, and bulk CSV import (server/routes.ts).

Modelling conventions:
* JS `Map` objects become association lists that replace in place on an
  existing key and append otherwise (this preserves JS `Map` insertion
  order, which `Array.from(map.values()).find(...)` relies on).
* `randomUUID()` is modelled by a deterministic fresh-name supply
  (`uuid n` driven by a `nextId` counter); only freshness/distinctness of
  the generated ids is ever relied upon.
* `Date` values are modelled as `Nat` timestamps drawn from a `now` field.
* JS string truthiness of nullable string fields (`if (x)` where `x` is
  `string | null`) is modelled by `optTruthy` (`none` and `some ""` are
  falsy).
* Exceptions thrown by store operations become `Except String` results;
  network failures of the remote backend are injected through an explicit
  per-call failure schedule.
* Regexes are translated to executable character-list predicates with the
  same deterministic matching semantics (`\s` is modelled as
  `Char.isWhitespace`).
-/

namespace CVM

/-- JS truthiness of a `string | null` value: `null` and `""` are falsy. -/
def optTruthy : Option String → Bool
  | none => false
  | some s => s != ""

/-- `Map.set`: replace the value at an existing key in place, else append.
This matches JS `Map` semantics where updating a key keeps its insertion
position. -/
def alistSet (k : String) (v : α) : List (String × α) → List (String × α)
  | [] => [(k, v)]
  | (k0, v0) :: rest => if k0 == k then (k, v) :: rest else (k0, v0) :: alistSet k v rest

/-- Replace the first element satisfying `p` (sheet row overwrite by key). -/
def replaceFirstBy (p : α → Bool) (v : α) : List α → List α
  | [] => []
  | x :: xs => if p x then v :: xs else x :: replaceFirstBy p v xs

/-- `String.prototype.trim()` (whitespace modelled by `Char.isWhitespace`),
implemented over the character list so that it evaluates inside the
kernel. -/
def jsTrim (s : String) : String :=
  String.mk (((s.toList.dropWhile Char.isWhitespace).reverse.dropWhile
    Char.isWhitespace).reverse)

/-- `String.prototype.substring(0, n)`. -/
def jsTake (s : String) (n : Nat) : String :=
  String.mk (s.toList.take n)

/-- `String.prototype.toUpperCase()` (ASCII, as used on seat numbers). -/
def jsToUpper (s : String) : String :=
  String.mk (s.toList.map Char.toUpper)

/-- `String.prototype.toLowerCase()` (ASCII, as used on emails). -/
def jsToLower (s : String) : String :=
  String.mk (s.toList.map Char.toLower)

/-- `String.prototype.padStart(n, c)`. -/
def padStart (s : String) (n : Nat) (c : Char) : String :=
  if n ≤ s.length then s else String.mk (List.replicate (n - s.length) c) ++ s

def isUpperAZ (c : Char) : Bool := 'A' ≤ c && c ≤ 'Z'

def isDigit09 (c : Char) : Bool := '0' ≤ c && c ≤ '9'

/-- `parseInt` on a string of decimal digits. -/
def digitsToNat (cs : List Char) : Nat :=
  cs.foldl (fun acc c => acc * 10 + (c.toNat - '0'.toNat)) 0

/-! ## Venue configuration (server/config/venue.ts) -/

structure VenueConfig where
  name : String
  rows : List String
  seatsPerRow : Nat
  seatNumberFormat : String → Nat → String

def defaultVenueConfig : VenueConfig :=
  { name := "Concert Hall"
    rows := ["A", "B", "C", "D", "E", "F", "G", "H", "I", "J"]
    seatsPerRow := 20
    seatNumberFormat := fun row seatIndex => row ++ "-" ++ padStart (toString seatIndex) 2 '0' }

def smallVenueConfig : VenueConfig :=
  { name := "Intimate Theater"
    rows := ["A", "B", "C", "D", "E"]
    seatsPerRow := 15
    seatNumberFormat := fun row seatIndex => row ++ padStart (toString seatIndex) 2 '0' }

def largeVenueConfig : VenueConfig :=
  { name := "Stadium"
    rows := ["A", "B", "C", "D", "E", "F", "G", "H", "I", "J", "K", "L", "M", "N", "O"]
    seatsPerRow := 30
    seatNumberFormat := fun row seatIndex => row ++ "-" ++ padStart (toString seatIndex) 3 '0' }

/-- The seat descriptors produced by `generateSeats` (no store id yet). -/
structure SeatInfo where
  seatNumber : String
  row : String
  seatIndex : String
  isOccupied : Bool
  ticketId : Option String
deriving DecidableEq, Repr

/-- `generateSeats(config)`: the full ordered seat universe of a venue. -/
def generateSeats (config : VenueConfig) : List SeatInfo :=
  config.rows.flatMap fun row =>
    (List.range config.seatsPerRow).map fun k =>
      { seatNumber := config.seatNumberFormat row (k + 1)
        row := row
        seatIndex := padStart (toString (k + 1)) 2 '0'
        isOccupied := false
        ticketId := none }

/-- The regex `^([A-Z]+)-?(\d+)$` of `isValidSeatNumber`: one or more
letters `A`-`Z`, an optional single hyphen, one or more digits, end of
string.  Returns the two capture groups.  The three character classes are
disjoint, so greedy matching is deterministic. -/
def seatNumberMatch (cs : List Char) : Option (List Char × List Char) :=
  let letters := cs.takeWhile isUpperAZ
  let rest := cs.dropWhile isUpperAZ
  if letters.isEmpty then none
  else
    let digits := match rest with
      | '-' :: r => r
      | r => r
    if digits.isEmpty then none
    else if digits.all isDigit09 then some (letters, digits) else none

/-- `isValidSeatNumber(seatNumber, config)` from server/config/venue.ts. -/
def isValidSeatNumber (seatNumber : String) (config : VenueConfig) : Bool :=
  match seatNumberMatch seatNumber.toList with
  | none => false
  | some (rowCs, digitCs) =>
    let row := String.mk rowCs
    let seatIndex := digitsToNat digitCs
    config.rows.contains row && decide (1 ≤ seatIndex) && decide (seatIndex ≤ config.seatsPerRow)

/-! ## Data model (shared/schema.ts) -/

/-- A stored ticket row.  `status` is a free-form string in the source
(the schema documents the intended values pending / assigned / checked-in
but does not enforce them). -/
structure Ticket where
  id : String
  ticketId : String
  guestName : String
  email : String
  seatNumber : Option String
  qrCode : String
  status : String
  purchaseDate : Nat
  assignedAt : Option Nat
  checkedInAt : Option Nat
deriving DecidableEq, Repr

structure Seat where
  id : String
  seatNumber : String
  row : String
  seatIndex : String
  isOccupied : Bool
  ticketId : Option String
deriving DecidableEq, Repr

/-- The draft accepted by `createTicket` (`InsertTicket`). -/
structure InsertTicket where
  ticketId : String
  guestName : String
  email : String
  seatNumber : Option String
  qrCode : String
  status : Option String
deriving DecidableEq, Repr

/-- A `Partial<Ticket>` restricted to the fields the repository ever
passes to `updateTicket`; a `some` field overwrites, `none` leaves the
existing value (last-write-wins merge). -/
structure TicketUpd where
  seatNumber : Option (Option String)
  status : Option String
  assignedAt : Option (Option Nat)
  checkedInAt : Option (Option Nat)
deriving DecidableEq, Repr

def Ticket.applyUpd (t : Ticket) (u : TicketUpd) : Ticket :=
  { t with
    seatNumber := u.seatNumber.getD t.seatNumber
    status := u.status.getD t.status
    assignedAt := u.assignedAt.getD t.assignedAt
    checkedInAt := u.checkedInAt.getD t.checkedInAt }

/-- A `Partial<Seat>` restricted to the fields ever passed to `updateSeat`. -/
structure SeatUpd where
  isOccupied : Option Bool
  ticketId : Option (Option String)
deriving DecidableEq, Repr

def Seat.applyUpd (s : Seat) (u : SeatUpd) : Seat :=
  { s with
    isOccupied := u.isOccupied.getD s.isOccupied
    ticketId := u.ticketId.getD s.ticketId }

/-! ## In-memory store (server/storage.ts, `MemStorage`) -/

/-- `randomUUID()` modelled as a deterministic fresh-name supply. -/
def uuid (n : Nat) : String := "uuid-" ++ toString n

structure MemStorage where
  tickets : List (String × Ticket)
  seats : List (String × Seat)
  nextId : Nat
  now : Nat
deriving DecidableEq, Repr

def MemStorage.getTicket (s : MemStorage) (id : String) : Option Ticket :=
  s.tickets.lookup id

/-- `Array.from(this.tickets.values()).find(t => t.ticketId === ticketId)`. -/
def MemStorage.getTicketByTicketId (s : MemStorage) (tid : String) : Option Ticket :=
  (s.tickets.find? fun p => p.2.ticketId == tid).map (·.2)

def MemStorage.getTicketByQRCode (s : MemStorage) (qrCode : String) : Option Ticket :=
  (s.tickets.find? fun p => p.2.qrCode == qrCode).map (·.2)

def MemStorage.getSeat (s : MemStorage) (seatNumber : String) : Option Seat :=
  s.seats.lookup seatNumber

/-- `MemStorage.createTicket`: assigns a fresh id, applies the
`status || "pending"` and `seatNumber || null` defaults, stamps
`purchaseDate`, nulls the two transition timestamps, and inserts.  The
source performs no duplicate-`ticketId` check. -/
def MemStorage.createTicket (s : MemStorage) (draft : InsertTicket) : Ticket × MemStorage :=
  let id := uuid s.nextId
  let ticket : Ticket :=
    { id := id
      ticketId := draft.ticketId
      guestName := draft.guestName
      email := draft.email
      seatNumber := if optTruthy draft.seatNumber then draft.seatNumber else none
      qrCode := draft.qrCode
      status := match draft.status with
        | some st => if st == "" then "pending" else st
        | none => "pending"
      purchaseDate := s.now
      assignedAt := none
      checkedInAt := none }
  (ticket, { s with tickets := alistSet id ticket s.tickets, nextId := s.nextId + 1 })

/-- `MemStorage.updateTicket`: merge-or-throw. -/
def MemStorage.updateTicket (s : MemStorage) (id : String) (u : TicketUpd) :
    Except String (Ticket × MemStorage) :=
  match s.tickets.lookup id with
  | none => .error "Ticket not found"
  | some t =>
    let t2 := t.applyUpd u
    .ok (t2, { s with tickets := alistSet id t2 s.tickets })

/-- `MemStorage.updateSeat`: merge-or-throw. -/
def MemStorage.updateSeat (s : MemStorage) (seatNumber : String) (u : SeatUpd) :
    Except String (Seat × MemStorage) :=
  match s.seats.lookup seatNumber with
  | none => .error "Seat not found"
  | some seat =>
    let seat2 := seat.applyUpd u
    .ok (seat2, { s with seats := alistSet seatNumber seat2 s.seats })

/-- Result shape of the atomic seat assignment. -/
structure ClaimResult where
  success : Bool
  error : Option String
  ticket : Option Ticket
deriving DecidableEq, Repr

def claimErr (msg : String) : ClaimResult :=
  { success := false, error := some msg, ticket := none }

/-- `MemStorage._performSeatAssignment`: the validate-then-mutate body run
inside the per-seat lock.  The source's catch-and-rollback branch guards
`Map.set` calls that cannot throw, so it is dead code in this sequential
model; on the success path both records are replaced before returning. -/
def MemStorage.performSeatAssignment (s : MemStorage)
    (ticketId seatNumber ticketIdForSeat : String) : ClaimResult × MemStorage :=
  match s.tickets.lookup ticketId with
  | none => (claimErr "Ticket not found", s)
  | some ticket =>
    match s.seats.lookup seatNumber with
    | none => (claimErr "Seat not found", s)
    | some seat =>
      if seat.isOccupied then
        (claimErr "Seat is already occupied", s)
      else if optTruthy ticket.seatNumber then
        (claimErr "Ticket already has a seat assigned", s)
      else
        let updatedSeat := { seat with isOccupied := true, ticketId := some ticketIdForSeat }
        let updatedTicket :=
          { ticket with seatNumber := some seatNumber, status := "assigned",
                        assignedAt := some s.now }
        ({ success := true, error := none, ticket := some updatedTicket },
         { s with seats := alistSet seatNumber updatedSeat s.seats,
                  tickets := alistSet ticketId updatedTicket s.tickets })

/-- `MemStorage.assignSeatAtomically`: under sequential execution the
per-seat lock chain is a no-op, so the operation is exactly
`_performSeatAssignment`. -/
def MemStorage.assignSeatAtomically (s : MemStorage)
    (ticketId seatNumber ticketIdForSeat : String) : ClaimResult × MemStorage :=
  s.performSeatAssignment ticketId seatNumber ticketIdForSeat

/-- The seeded store built by the `MemStorage` constructor: the venue
layout generator's output for the default configuration, each seat
unoccupied with a fresh id. -/
def initMemStorage : MemStorage :=
  { tickets := []
    seats := (generateSeats defaultVenueConfig).map fun si =>
      (si.seatNumber,
       { id := "seat-" ++ si.seatNumber
         seatNumber := si.seatNumber
         row := si.row
         seatIndex := si.seatIndex
         isOccupied := si.isOccupied
         ticketId := si.ticketId })
    nextId := 0
    now := 0 }

/-! ## Route handlers (server/routes.ts) -/

inductive HandlerRes where
  | err (status : Nat) (message : String)
  | ok (t : Ticket)
deriving DecidableEq, Repr

/-- `POST /api/tickets/:id/checkin`: reject blank ids, 404 unknown ids,
400 for already-checked-in or still-pending tickets, otherwise stamp
`status = "checked-in"` and `checkedInAt`. -/
def checkinHandler (s : MemStorage) (id : String) : HandlerRes × MemStorage :=
  if jsTrim id == "" then (.err 400 "Valid ticket ID is required", s)
  else
    let sid := jsTrim id
    match s.tickets.lookup sid with
    | none => (.err 404 "Ticket not found", s)
    | some t =>
      if t.status == "checked-in" then (.err 400 "Ticket already checked in", s)
      else if t.status == "pending" then
        (.err 400 "Cannot check in ticket without assigned seat", s)
      else
        match s.updateTicket sid
            { seatNumber := none, status := some "checked-in",
              assignedAt := none, checkedInAt := some (some s.now) } with
        | .ok (t2, s2) => (.ok t2, s2)
        | .error _ => (.err 500 "Failed to check in ticket", s)

/-- The regex `^TKT-\d{4}-\d{6}-\d{3}$` used by the scan handler before it
falls back to a lookup by `ticketId`. -/
def ticketIdFormatTest (s : String) : Bool :=
  match s.toList with
  | ['T', 'K', 'T', '-', a, b, c, d, '-', e, f, g, h, i, j, '-', k, l, m] =>
    [a, b, c, d, e, f, g, h, i, j, k, l, m].all isDigit09
  | _ => false

inductive ScanRes where
  | badRequest (message : String)
  | notFound (message : String)
  | found (t : Ticket)
deriving DecidableEq, Repr

/-- `POST /api/tickets/scan`: trim and bound the payload, look it up as a
stored `qrCode`, and only when that misses and the payload has the strict
ticket-code shape fall back to a lookup by `ticketId`. -/
def scanHandler (s : MemStorage) (qrData : String) : ScanRes :=
  let sanitized := jsTake (jsTrim qrData) 500
  if sanitized.length == 0 then .badRequest "QR data cannot be empty"
  else
    match s.getTicketByQRCode sanitized with
    | some t => .found t
    | none =>
      if ticketIdFormatTest sanitized then
        match s.getTicketByTicketId sanitized with
        | some t => .found t
        | none => .notFound "Invalid QR code or ticket not found"
      else .notFound "Invalid QR code or ticket not found"

/-! ## Bulk import (server/routes.ts, `POST /api/tickets/import`) -/

/-- One parsed CSV record; absent columns are `none`. -/
structure ImportRecord where
  guestName : Option String
  email : Option String
  seatNumber : Option String
deriving DecidableEq, Repr

structure ImportError where
  row : Nat
  error : String
  data : ImportRecord
deriving DecidableEq, Repr

structure ImportResults where
  imported : Nat
  seatsAssigned : Nat
  errors : List ImportError
deriving DecidableEq, Repr

/-- A character admissible in the email regex classes: `[^\s@]`. -/
def isEmailChar (c : Char) : Bool := !(c.isWhitespace || c == '@')

/-- The email regex `/^[^\s@]+@[^\s@]+\.[^\s@]+$/`: a nonempty local
part, one `@`, and a domain containing a `.` that is neither its first
nor its last character, with no whitespace or second `@` anywhere. -/
def emailRegexTest (s : String) : Bool :=
  let cs := s.toList
  let localPart := cs.takeWhile fun c => c != '@'
  match cs.dropWhile (fun c => c != '@') with
  | [] => false
  | _ :: domain =>
    !localPart.isEmpty && localPart.all isEmailChar &&
    !domain.isEmpty && domain.all isEmailChar &&
    ((domain.drop 1).dropLast.contains '.')

/-- The seat format regex `^[A-J]-([01][0-9]|20)$` used by the import and
assign-seat routes. -/
def seatFormatTest (s : String) : Bool :=
  match s.toList with
  | [c0, c1, c2, c3] =>
    ('A' ≤ c0 && c0 ≤ 'J') && c1 == '-' &&
    (((c2 == '0' || c2 == '1') && isDigit09 c3) || (c2 == '2' && c3 == '0'))
  | _ => false

/-- Append one per-row error entry; the source reports the 0-based loop
index `i` as row `i + 2` ("+2 because CSV rows start from 1 and we have
header"). -/
def pushErr (acc : ImportResults) (i : Nat) (msg : String) (r : ImportRecord) : ImportResults :=
  { acc with errors := acc.errors ++ [{ row := i + 2, error := msg, data := r }] }

/-- The per-record body of the import loop.  `seatMap` is the seat
snapshot taken once before the loop; the occupancy check consults that
snapshot while `updateSeat` mutates the live store — exactly as the
source does.  `ids i` models the generated ticket code for record `i`
and `qr` the QR payload derived from it. -/
def importStep (seatMap : List (String × Seat)) (ids : Nat → String) (qr : String → String)
    (i : Nat) (r : ImportRecord) (acc : ImportResults) (st : MemStorage) :
    ImportResults × MemStorage :=
  match r.guestName with
  | none => (pushErr acc i "Missing or invalid guestName" r, st)
  | some g =>
    if jsTrim g == "" then (pushErr acc i "Missing or invalid guestName" r, st)
    else
      match r.email with
      | none => (pushErr acc i "Missing or invalid email address" r, st)
      | some e =>
        if !emailRegexTest (jsTrim e) then
          (pushErr acc i "Missing or invalid email address" r, st)
        else
          let sanitizedGuestName := jsTake (jsTrim g) 100
          let sanitizedEmail := jsTake (jsToLower (jsTrim e)) 255
          let ticketId := ids i
          let qrCode := qr ticketId
          let mkDraft : Option String → String → InsertTicket := fun seatNumber status =>
            { ticketId := ticketId, guestName := sanitizedGuestName,
              email := sanitizedEmail, seatNumber := seatNumber,
              qrCode := qrCode, status := some status }
          let finish : Option String → ImportResults → MemStorage → ImportResults × MemStorage :=
            fun seatNumber acc1 st1 =>
              let status := if seatNumber.isSome then "assigned" else "pending"
              let (t, st2) := st1.createTicket (mkDraft seatNumber status)
              if seatNumber.isSome then
                match st2.updateTicket t.id
                    { seatNumber := none, status := none,
                      assignedAt := some (some st2.now), checkedInAt := none } with
                | .ok (_, st3) => ({ acc1 with imported := acc1.imported + 1 }, st3)
                | .error msg => (pushErr acc1 i msg r, st2)
              else ({ acc1 with imported := acc1.imported + 1 }, st2)
          match r.seatNumber with
          | none => finish none acc st
          | some sn0 =>
            if jsTrim sn0 == "" then finish none acc st
            else
              let requestedSeat := jsToUpper (jsTrim sn0)
              if !seatFormatTest requestedSeat then
                (pushErr acc i
                  ("Invalid seat number format: " ++ requestedSeat ++
                   ". Use format like A-01 to J-20") r, st)
              else
                match seatMap.lookup requestedSeat with
                | none => (pushErr acc i ("Seat not found: " ++ requestedSeat) r, st)
                | some seat =>
                  if seat.isOccupied then
                    (pushErr acc i ("Seat " ++ requestedSeat ++ " is already occupied") r, st)
                  else
                    match st.updateSeat requestedSeat
                        { isOccupied := some true, ticketId := some (some ticketId) } with
                    | .error msg => (pushErr acc i msg r, st)
                    | .ok (_, st1) =>
                      finish (some requestedSeat)
                        { acc with seatsAssigned := acc.seatsAssigned + 1 } st1

/-- The import loop over the remaining records, starting at 0-based
index `i`. -/
def importLoop (seatMap : List (String × Seat)) (ids : Nat → String) (qr : String → String) :
    Nat → List ImportRecord → ImportResults → MemStorage → ImportResults × MemStorage
  | _, [], acc, st => (acc, st)
  | i, r :: rest, acc, st =>
    let (acc2, st2) := importStep seatMap ids qr i r acc st
    importLoop seatMap ids qr (i + 1) rest acc2 st2

/-- The record-processing phase of `POST /api/tickets/import`.  The seat
map is snapshotted once before the loop; because `updateSeat` replaces
seat records rather than mutating them, the snapshot never reflects
updates made by earlier records of the same batch. -/
def processImport (st : MemStorage) (records : List ImportRecord)
    (ids : Nat → String) (qr : String → String) : ImportResults × MemStorage :=
  importLoop st.seats ids qr 0 records
    { imported := 0, seatsAssigned := 0, errors := [] } st

/-! ## Remote tabular backend (server/storage/google-sheets.ts)

The sheet is modelled as the list of its data rows.  Each public store
call is a network round trip that can fail; failures are injected through
a schedule `failAt : Nat → Bool` indexed by the position of the call
inside `assignSeatAtomically` (0 = `getTicket`, 1 = `getSeat`,
2 = `updateSeat`, 3 = `updateTicket`).  A failing call performs no
mutation. -/

structure SheetsState where
  tickets : List Ticket
  seats : List Seat
deriving DecidableEq, Repr

/-- Scan the tickets sheet for the row whose id column matches. -/
def SheetsState.getTicket (st : SheetsState) (id : String) : Option Ticket :=
  st.tickets.find? fun t => t.id == id

def SheetsState.getSeat (st : SheetsState) (seatNumber : String) : Option Seat :=
  st.seats.find? fun s => s.seatNumber == seatNumber

/-- `GoogleSheetsStorage.updateTicket`: read the current row by id, merge,
and overwrite that row in place. -/
def SheetsState.updateTicket (st : SheetsState) (id : String) (u : TicketUpd) :
    Except String (Ticket × SheetsState) :=
  match st.getTicket id with
  | none => .error "Ticket not found"
  | some t =>
    let t2 := t.applyUpd u
    .ok (t2, { st with tickets := replaceFirstBy (fun x => x.id == id) t2 st.tickets })

def SheetsState.updateSeat (st : SheetsState) (seatNumber : String) (u : SeatUpd) :
    Except String (Seat × SheetsState) :=
  match st.getSeat seatNumber with
  | none => .error "Seat not found"
  | some s =>
    let s2 := s.applyUpd u
    .ok (s2, { st with seats := replaceFirstBy (fun x => x.seatNumber == seatNumber) s2 st.seats })

def internalErrMsg : String := "Failed to assign seat due to internal error"

/-- `GoogleSheetsStorage.assignSeatAtomically`: read both records, run the
four validations, then issue the two updates.  Any thrown backend error is
caught and reported as the generic internal error; the catch block
performs no compensation, so a failure between the two updates leaves the
seat update in place. -/
def SheetsState.assignSeatAtomically (st : SheetsState)
    (ticketId seatNumber ticketIdForSeat : String) (failAt : Nat → Bool) (now : Nat) :
    ClaimResult × SheetsState :=
  if failAt 0 then (claimErr internalErrMsg, st)
  else if failAt 1 then (claimErr internalErrMsg, st)
  else
    match st.getTicket ticketId with
    | none => (claimErr "Ticket not found", st)
    | some ticket =>
      match st.getSeat seatNumber with
      | none => (claimErr "Seat not found", st)
      | some seat =>
        if seat.isOccupied then (claimErr "Seat is already occupied", st)
        else if optTruthy ticket.seatNumber then
          (claimErr "Ticket already has a seat assigned", st)
        else if failAt 2 then (claimErr internalErrMsg, st)
        else
          match st.updateSeat seatNumber
              { isOccupied := some true, ticketId := some (some ticketIdForSeat) } with
          | .error _ => (claimErr internalErrMsg, st)
          | .ok (_, st1) =>
            if failAt 3 then (claimErr internalErrMsg, st1)
            else
              match st1.updateTicket ticketId
                  { seatNumber := some (some seatNumber), status := some "assigned",
                    assignedAt := some (some now), checkedInAt := none } with
              | .error _ => (claimErr internalErrMsg, st1)
              | .ok (t2, st2) => ({ success := true, error := none, ticket := some t2 }, st2)

/-! ## Invariant I1 -/

/-- A ticket references seat `sn` with an occupying status. -/
def ticketRefsSeat (sn : String) (t : Ticket) : Bool :=
  t.seatNumber == some sn && (t.status == "assigned" || t.status == "checked-in")

/-- Invariant I1: for every seat, `isOccupied` iff `ticketId` is non-null
iff exactly one ticket references the seat with status assigned or
checked-in. -/
def I1holds (s : MemStorage) : Bool :=
  s.seats.all fun p =>
    let refs := (s.tickets.filter fun q => ticketRefsSeat p.2.seatNumber q.2).length
    (p.2.isOccupied == (p.2.ticketId != none)) && (p.2.isOccupied == (refs == 1))

/-! ## Association-list lemmas -/

theorem lookup_alistSet_self (k : String) (v : α) (l : List (String × α)) :
    (alistSet k v l).lookup k = some v := by
  induction l with
  | nil => simp [alistSet, List.lookup]
  | cons p rest ih =>
    obtain ⟨k0, v0⟩ := p
    by_cases h : k0 = k
    · subst h; simp [alistSet, List.lookup]
    · simp only [alistSet, beq_iff_eq, h, if_false, List.lookup]
      have h2 : (k == k0) = false := by simp [Ne.symm h]
      simp [h2, ih]

theorem lookup_alistSet_ne (k q : String) (v : α) (l : List (String × α)) (h : q ≠ k) :
    (alistSet k v l).lookup q = l.lookup q := by
  induction l with
  | nil =>
    have h2 : (q == k) = false := by simp [h]
    simp [alistSet, List.lookup, h2]
  | cons p rest ih =>
    obtain ⟨k0, v0⟩ := p
    by_cases h0 : k0 = k
    · subst h0
      simp only [alistSet, beq_self_eq_true, if_true, List.lookup]
      have h2 : (q == k0) = false := by simp [h]
      simp [h2]
    · simp only [alistSet, beq_iff_eq, h0, if_false, List.lookup]
      by_cases h3 : q = k0
      · subst h3; simp
      · have h4 : (q == k0) = false := by simp [h3]
        simp [h4, ih]

theorem alistSet_of_lookup_none (k : String) (v : α) (l : List (String × α))
    (h : l.lookup k = none) : alistSet k v l = l ++ [(k, v)] := by
  induction l with
  | nil => simp [alistSet]
  | cons p rest ih =>
    obtain ⟨k0, v0⟩ := p
    simp only [List.lookup] at h
    by_cases h0 : k = k0
    · subst h0; simp at h
    · have h2 : (k == k0) = false := by simp [h0]
      rw [h2] at h
      simp only [alistSet, beq_iff_eq, Ne.symm h0, if_false, List.cons_append, List.cons.injEq,
        true_and]
      exact ih h

theorem mem_of_lookup_eq_some {α : Type} {k : String} {v : α} :
    ∀ {l : List (String × α)}, l.lookup k = some v → (k, v) ∈ l := by
  intro l
  induction l with
  | nil => intro h; simp [List.lookup] at h
  | cons p rest ih =>
    intro h
    obtain ⟨k0, v0⟩ := p
    by_cases hk : k = k0
    · subst hk
      simp only [List.lookup, beq_self_eq_true] at h
      simp only [Option.some.injEq] at h
      subst h
      exact List.mem_cons_self _ _
    · have h2 : (k == k0) = false := by simp [hk]
      simp only [List.lookup, h2] at h
      exact List.mem_cons_of_mem _ (ih h)

theorem find?_replaceFirstBy {α : Type} (p : α → Bool) (v : α) (x : α)
    (hv : p v = true) :
    ∀ {l : List α}, l.find? p = some x → (replaceFirstBy p v l).find? p = some v := by
  intro l
  induction l with
  | nil => intro h; simp [List.find?] at h
  | cons y ys ih =>
    intro h
    cases hy : p y with
    | true => simp [replaceFirstBy, hy, List.find?, hv]
    | false =>
      simp only [List.find?, hy] at h
      simp only [replaceFirstBy, hy, Bool.false_eq_true, if_false, List.find?]
      exact ih h

/-- The validation outcome prescribed by the specification for the seat
claim (section 4.3 step 3), written from the spec's words: check ticket
existence, then seat existence, then seat vacancy, then that the ticket
holds no seat, and report the first violation.  Used to show the code
validates in exactly this order. -/
def specClaimOutcome (ticket : Option Ticket) (seat : Option Seat) : Option String :=
  match ticket with
  | none => some "Ticket not found"
  | some t =>
    match seat with
    | none => some "Seat not found"
    | some se =>
      if se.isOccupied then some "Seat is already occupied"
      else if optTruthy t.seatNumber then some "Ticket already has a seat assigned"
      else none

theorem performSeatAssignment_error_eq (s : MemStorage) (tid sn tfs : String) :
    (s.performSeatAssignment tid sn tfs).1.error =
      specClaimOutcome (s.tickets.lookup tid) (s.seats.lookup sn) := by
  rcases ht : s.tickets.lookup tid with _ | t
  · simp [MemStorage.performSeatAssignment, specClaimOutcome, ht, claimErr]
  · rcases hs : s.seats.lookup sn with _ | se
    · simp [MemStorage.performSeatAssignment, specClaimOutcome, ht, hs, claimErr]
    · by_cases ho : se.isOccupied
      · simp [MemStorage.performSeatAssignment, specClaimOutcome, ht, hs, ho, claimErr]
      · by_cases hn : optTruthy t.seatNumber
        · simp [MemStorage.performSeatAssignment, specClaimOutcome, ht, hs, ho, hn, claimErr]
        · simp [MemStorage.performSeatAssignment, specClaimOutcome, ht, hs, ho, hn, claimErr]

theorem performSeatAssignment_frame (s : MemStorage) (tid sn tfs : String)
    (h : specClaimOutcome (s.tickets.lookup tid) (s.seats.lookup sn) ≠ none) :
    (s.performSeatAssignment tid sn tfs).1.success = false ∧
    (s.performSeatAssignment tid sn tfs).2 = s := by
  rcases ht : s.tickets.lookup tid with _ | t
  · simp [MemStorage.performSeatAssignment, ht, claimErr]
  · rcases hs : s.seats.lookup sn with _ | se
    · simp [MemStorage.performSeatAssignment, ht, hs, claimErr]
    · by_cases ho : se.isOccupied
      · simp [MemStorage.performSeatAssignment, ht, hs, ho, claimErr]
      · by_cases hn : optTruthy t.seatNumber
        · simp [MemStorage.performSeatAssignment, ht, hs, ho, hn, claimErr]
        · exact absurd (by simp [specClaimOutcome, ht, hs, ho, hn]) h

theorem performSeatAssignment_success (s : MemStorage) (tid sn tfs : String)
    (h : specClaimOutcome (s.tickets.lookup tid) (s.seats.lookup sn) = none) :
    (s.performSeatAssignment tid sn tfs).1.success = true ∧
    ∃ t se, s.tickets.lookup tid = some t ∧ s.seats.lookup sn = some se ∧
      (s.performSeatAssignment tid sn tfs).2.seats.lookup sn =
        some { se with isOccupied := true, ticketId := some tfs } ∧
      (s.performSeatAssignment tid sn tfs).2.tickets.lookup tid =
        some { t with seatNumber := some sn, status := "assigned",
                      assignedAt := some s.now } := by
  rcases ht : s.tickets.lookup tid with _ | t
  · simp [specClaimOutcome, ht] at h
  · rcases hs : s.seats.lookup sn with _ | se
    · simp [specClaimOutcome, ht, hs] at h
    · by_cases ho : se.isOccupied
      · simp [specClaimOutcome, ht, hs, ho] at h
      · by_cases hn : optTruthy t.seatNumber
        · simp [specClaimOutcome, ht, hs, ho, hn] at h
        · refine ⟨by simp [MemStorage.performSeatAssignment, ht, hs, ho, hn], t, se, rfl, rfl,
            ?_, ?_⟩
          · simp [MemStorage.performSeatAssignment, ht, hs, ho, hn, lookup_alistSet_self]
          · simp [MemStorage.performSeatAssignment, ht, hs, ho, hn, lookup_alistSet_self]

theorem sheetsAssign_error_eq (st : SheetsState) (tid sn tfs : String)
    (failAt : Nat → Bool) (now2 : Nat) (hfail : ∀ n, failAt n = false) :
    (st.assignSeatAtomically tid sn tfs failAt now2).1.error =
      specClaimOutcome (st.getTicket tid) (st.getSeat sn) := by
  rcases ht : st.getTicket tid with _ | t
  · simp [SheetsState.assignSeatAtomically, specClaimOutcome, ht, hfail, claimErr]
  · rcases hs : st.getSeat sn with _ | se
    · simp [SheetsState.assignSeatAtomically, specClaimOutcome, ht, hs, hfail, claimErr]
    · by_cases ho : se.isOccupied
      · simp [SheetsState.assignSeatAtomically, specClaimOutcome, ht, hs, ho, hfail, claimErr]
      · by_cases hn : optTruthy t.seatNumber
        · simp [SheetsState.assignSeatAtomically, specClaimOutcome, ht, hs, ho, hn, hfail,
            claimErr]
        · have ht2 : st.tickets.find? (fun x => x.id == tid) = some t := ht
          have hs2 : st.seats.find? (fun x => x.seatNumber == sn) = some se := hs
          simp [SheetsState.assignSeatAtomically, specClaimOutcome, hfail, claimErr,
            SheetsState.updateSeat, SheetsState.updateTicket, SheetsState.getTicket,
            SheetsState.getSeat, ht2, hs2, ho, hn]

theorem sheetsAssign_frame (st : SheetsState) (tid sn tfs : String)
    (failAt : Nat → Bool) (now2 : Nat) (hfail : ∀ n, failAt n = false)
    (h : specClaimOutcome (st.getTicket tid) (st.getSeat sn) ≠ none) :
    (st.assignSeatAtomically tid sn tfs failAt now2).1.success = false ∧
    (st.assignSeatAtomically tid sn tfs failAt now2).2 = st := by
  rcases ht : st.getTicket tid with _ | t
  · simp [SheetsState.assignSeatAtomically, ht, hfail, claimErr]
  · rcases hs : st.getSeat sn with _ | se
    · simp [SheetsState.assignSeatAtomically, ht, hs, hfail, claimErr]
    · by_cases ho : se.isOccupied
      · simp [SheetsState.assignSeatAtomically, ht, hs, ho, hfail, claimErr]
      · by_cases hn : optTruthy t.seatNumber
        · simp [SheetsState.assignSeatAtomically, ht, hs, ho, hn, hfail, claimErr]
        · exact absurd (by simp [specClaimOutcome, ht, hs, ho, hn]) h

/-- The seat record as written by the mutation phase of a successful
claim. -/
def occupySeat (se : Seat) (tfs : String) : Seat :=
  { se with isOccupied := true, ticketId := some tfs }

/-- The ticket record as written by the mutation phase of a successful
claim. -/
def assignTicket (t : Ticket) (sn : String) (now : Nat) : Ticket :=
  { t with seatNumber := some sn, status := "assigned", assignedAt := some now }

theorem performSeatAssignment_success_iff (s : MemStorage) (tid sn tfs : String) :
    (s.performSeatAssignment tid sn tfs).1.success = true ↔
      specClaimOutcome (s.tickets.lookup tid) (s.seats.lookup sn) = none := by
  rcases ht : s.tickets.lookup tid with _ | t
  · simp [MemStorage.performSeatAssignment, specClaimOutcome, ht, claimErr]
  · rcases hs : s.seats.lookup sn with _ | se
    · simp [MemStorage.performSeatAssignment, specClaimOutcome, ht, hs, claimErr]
    · by_cases ho : se.isOccupied
      · simp [MemStorage.performSeatAssignment, specClaimOutcome, ht, hs, ho, claimErr]
      · by_cases hn : optTruthy t.seatNumber
        · simp [MemStorage.performSeatAssignment, specClaimOutcome, ht, hs, ho, hn, claimErr]
        · simp [MemStorage.performSeatAssignment, specClaimOutcome, ht, hs, ho, hn, claimErr]

/-- Exhaustive characterization of the sheets-backend seat assignment
under an arbitrary failure schedule: either it fails leaving the state
untouched, or the four validations passed and it reaches the mutation
phase, where it either stops after the seat update with the internal
error (partial state kept) or applies both updates and succeeds. -/
theorem sheetsAssign_shape (st : SheetsState) (tid sn tfs : String)
    (failAt : Nat → Bool) (now2 : Nat) :
    (∃ msg, st.assignSeatAtomically tid sn tfs failAt now2 = (claimErr msg, st)) ∨
    (∃ t se,
      st.getTicket tid = some t ∧ st.getSeat sn = some se ∧ se.isOccupied = false ∧
      optTruthy t.seatNumber = false ∧
      (st.assignSeatAtomically tid sn tfs failAt now2 =
        (claimErr internalErrMsg,
         { st with seats := replaceFirstBy (fun x => x.seatNumber == sn)
                     (occupySeat se tfs) st.seats }) ∨
       st.assignSeatAtomically tid sn tfs failAt now2 =
        ({ success := true, error := none, ticket := some (assignTicket t sn now2) },
         { tickets := replaceFirstBy (fun x => x.id == tid) (assignTicket t sn now2) st.tickets
           seats := replaceFirstBy (fun x => x.seatNumber == sn)
                      (occupySeat se tfs) st.seats }))) := by
  by_cases h0 : failAt 0 = true
  · exact Or.inl ⟨internalErrMsg, by simp [SheetsState.assignSeatAtomically, h0]⟩
  by_cases h1 : failAt 1 = true
  · exact Or.inl ⟨internalErrMsg, by simp [SheetsState.assignSeatAtomically, h0, h1]⟩
  rcases ht : st.getTicket tid with _ | t
  · exact Or.inl ⟨"Ticket not found",
      by simp [SheetsState.assignSeatAtomically, h0, h1, ht]⟩
  rcases hs : st.getSeat sn with _ | se
  · exact Or.inl ⟨"Seat not found",
      by simp [SheetsState.assignSeatAtomically, h0, h1, ht, hs]⟩
  by_cases ho : se.isOccupied
  · exact Or.inl ⟨"Seat is already occupied",
      by simp [SheetsState.assignSeatAtomically, h0, h1, ht, hs, ho]⟩
  by_cases hn : optTruthy t.seatNumber
  · exact Or.inl ⟨"Ticket already has a seat assigned",
      by simp [SheetsState.assignSeatAtomically, h0, h1, ht, hs, ho, hn]⟩
  by_cases h2 : failAt 2 = true
  · exact Or.inl ⟨internalErrMsg,
      by simp [SheetsState.assignSeatAtomically, h0, h1, ht, hs, ho, hn, h2]⟩
  have ht2 : st.tickets.find? (fun x => x.id == tid) = some t := ht
  have hs2 : st.seats.find? (fun x => x.seatNumber == sn) = some se := hs
  by_cases h3 : failAt 3 = true
  · refine Or.inr ⟨t, se, rfl, rfl, by simpa using ho, by simpa using hn, Or.inl ?_⟩
    simp [SheetsState.assignSeatAtomically, h0, h1, h2, h3, ht, hs, ht2, hs2, ho, hn,
      SheetsState.updateSeat, SheetsState.getSeat, Seat.applyUpd, occupySeat]
  · refine Or.inr ⟨t, se, rfl, rfl, by simpa using ho, by simpa using hn, Or.inr ?_⟩
    simp [SheetsState.assignSeatAtomically, h0, h1, h2, h3, ht, hs, ht2, hs2, ho, hn,
      SheetsState.updateSeat, SheetsState.updateTicket, SheetsState.getSeat,
      SheetsState.getTicket, Seat.applyUpd, Ticket.applyUpd, occupySeat, assignTicket]

/-! ## Concrete fixtures used by the concrete theorems below -/

set_option maxRecDepth 10000

/-- A deterministic supply of generated ticket codes for import runs
(modelling the `TKT-2024-...` generator; only distinctness matters). -/
def importIds : Nat → String := fun i => "TKT-2024-000000-00" ++ toString i

/-- A deterministic stand-in for `generateQRCode`. -/
def importQr : String → String := fun tid => "qr:" ++ tid

def importRecAlice : ImportRecord :=
  { guestName := some "Alice", email := some "alice@example.com", seatNumber := some "A-01" }

def importRecBob : ImportRecord :=
  { guestName := some "Bob", email := some "bob@example.com", seatNumber := some "A-01" }

def importRecNamed (n e : String) : ImportRecord :=
  { guestName := some n, email := some e, seatNumber := none }

/-- Five seatless records whose third row carries an invalid email. -/
def fiveRowBatch : List ImportRecord :=
  [importRecNamed "G1" "g1@example.com", importRecNamed "G2" "g2@example.com",
   importRecNamed "G3" "invalid", importRecNamed "G4" "g4@example.com",
   importRecNamed "G5" "g5@example.com"]

def shTicket : Ticket :=
  { id := "t1", ticketId := "TKT-3", guestName := "Ann", email := "ann@example.com",
    seatNumber := none, qrCode := "q3", status := "pending",
    purchaseDate := 0, assignedAt := none, checkedInAt := none }

def shSeat : Seat :=
  { id := "s1", seatNumber := "A-01", row := "A", seatIndex := "01",
    isOccupied := false, ticketId := none }

def shState : SheetsState := { tickets := [shTicket], seats := [shSeat] }

/-- Failure schedule: only the final `updateTicket` network call throws. -/
def failAtTicketUpd : Nat → Bool := fun n => n == 3

def dupDraft : InsertTicket :=
  { ticketId := "TKT-DUP", guestName := "Joe", email := "joe@example.com",
    seatNumber := none, qrCode := "qd", status := none }

def regressDraft : InsertTicket :=
  { ticketId := "TKT-R", guestName := "Eve", email := "eve@example.com",
    seatNumber := none, qrCode := "q9", status := some "checked-in" }

def wTicket : Ticket :=
  { id := "t1", ticketId := "TKT-W", guestName := "Wit", email := "wit@example.com",
    seatNumber := none, qrCode := "QR-W", status := "pending",
    purchaseDate := 0, assignedAt := none, checkedInAt := none }

def wHolder : Ticket :=
  { id := "h1", ticketId := "TKT-H", guestName := "Hold", email := "hold@example.com",
    seatNumber := some "C-03", qrCode := "QR-H", status := "assigned",
    purchaseDate := 0, assignedAt := some 3, checkedInAt := none }

def wSeatFree : Seat :=
  { id := "s1", seatNumber := "B-02", row := "B", seatIndex := "02",
    isOccupied := false, ticketId := none }

def wSeatOcc : Seat :=
  { id := "s2", seatNumber := "C-03", row := "C", seatIndex := "03",
    isOccupied := true, ticketId := some "TKT-H" }

def wMem : MemStorage :=
  { tickets := [("t1", wTicket), ("h1", wHolder)]
    seats := [("B-02", wSeatFree), ("C-03", wSeatOcc)]
    nextId := 5
    now := 7 }

/-! ## Claim theorems -/

/-- **C1** (code bug).  Invariant I1 does not survive a sequential bulk
import: starting from the freshly seeded store (where I1 holds),
importing two rows that both request seat A-01 leaves both tickets
assigned to A-01 — the import loop validates occupancy against a seat
snapshot that `updateSeat` never refreshes — so I1 is false afterwards. -/
theorem import_breaks_invariant_I1 :
    I1holds initMemStorage = true ∧
    I1holds (processImport initMemStorage [importRecAlice, importRecBob]
      importIds importQr).2 = false := by
  constructor
  · decide
  · decide

/-- **C2** (code bug).  Importing two rows that both request the free
seat A-01 does not reject the second row: the report counts two imported
tickets and two assigned seats with no error entries, and both created
tickets are `assigned` to A-01 (the claim expects the second row to fail
with a seat-already-occupied error and `seatsAssigned = 1`). -/
theorem import_duplicate_seat_rows_both_assigned :
    (processImport initMemStorage [importRecAlice, importRecBob] importIds importQr).1 =
      { imported := 2, seatsAssigned := 2, errors := [] } ∧
    ((processImport initMemStorage [importRecAlice, importRecBob] importIds
        importQr).2.tickets.filter fun p =>
      p.2.seatNumber == some "A-01" && p.2.status == "assigned").length = 2 ∧
    ((processImport initMemStorage [importRecAlice, importRecBob] importIds
        importQr).2.getSeat "A-01").map (·.isOccupied) = some true := by
  refine ⟨by decide, by decide, by decide⟩

/-- **C8 counterexample.**  The validator is strictly more permissive
than the generator: `"A-1"` is accepted for the default configuration,
yet the generator (which zero-pads indices to two digits) never produces
it. -/
theorem seat_validator_accepts_nongenerated_cex :
    isValidSeatNumber "A-1" defaultVenueConfig = true ∧
    ((generateSeats defaultVenueConfig).map (·.seatNumber)).contains "A-1" = false := by
  refine ⟨by decide, by decide⟩

/-- **C8** (amended).  For each of the three shipped venue
configurations, every seat number produced by the layout generator is
accepted by the seat-number validator with that same configuration (the
converse direction of the original claim is refuted by the
counterexample). -/
theorem generated_seats_validate :
    (((generateSeats defaultVenueConfig).map (·.seatNumber)).all
      (isValidSeatNumber · defaultVenueConfig) = true) ∧
    (((generateSeats smallVenueConfig).map (·.seatNumber)).all
      (isValidSeatNumber · smallVenueConfig) = true) ∧
    (((generateSeats largeVenueConfig).map (·.seatNumber)).all
      (isValidSeatNumber · largeVenueConfig) = true) := by
  refine ⟨by decide, by decide, by decide⟩

/-- **C3 counterexample.**  In the sheets backend, when the seat update
succeeds and the ticket update then throws, the operation reports the
internal error but performs no compensation: the seat stays occupied
(pointing at the requesting ticket's code) while the ticket is
untouched, so the pre-read records are not restored. -/
theorem sheets_claim_no_compensation_cex :
    (shState.assignSeatAtomically "t1" "A-01" "TKT-3" failAtTicketUpd 5).1.success = false ∧
    (shState.assignSeatAtomically "t1" "A-01" "TKT-3" failAtTicketUpd 5).1.error =
      some internalErrMsg ∧
    ((shState.assignSeatAtomically "t1" "A-01" "TKT-3" failAtTicketUpd 5).2.getSeat
      "A-01").map (·.isOccupied) = some true ∧
    (shState.assignSeatAtomically "t1" "A-01" "TKT-3" failAtTicketUpd 5).2.tickets =
      shState.tickets ∧
    decide ((shState.assignSeatAtomically "t1" "A-01" "TKT-3" failAtTicketUpd 5).2 =
      shState) = false := by
  refine ⟨by decide, by decide, by decide, by decide, by decide⟩

/-- **C4 counterexample.**  `createTicket` performs no duplicate check:
creating a second ticket with an already-stored `ticketId` succeeds and
the store then holds two tickets with that `ticketId` (the claim expects
a Conflict leaving the store unchanged). -/
theorem createTicket_duplicate_ticketId_cex :
    (((initMemStorage.createTicket dupDraft).2.tickets.filter fun p =>
        p.2.ticketId == "TKT-DUP").length = 1) ∧
    ((((initMemStorage.createTicket dupDraft).2.createTicket
        dupDraft).2.tickets.filter fun p =>
        p.2.ticketId == "TKT-DUP").length = 2) := by
  refine ⟨by decide, by decide⟩

/-- **C9 counterexample.**  A ticket created through the open `status`
field with status `checked-in` and no seat (the creation route accepts
any status string) is regressed to `assigned` by a subsequent seat
claim: an operation moves its status backward along the
pending → assigned → checked-in chain. -/
theorem claimSeat_regresses_checked_in_cex :
    (((initMemStorage.createTicket regressDraft).2.getTicket "uuid-0").map
      (·.status) = some "checked-in") ∧
    ((initMemStorage.createTicket regressDraft).2.performSeatAssignment "uuid-0" "A-01"
      "TKT-R").1.success = true ∧
    ((((initMemStorage.createTicket regressDraft).2.performSeatAssignment "uuid-0" "A-01"
      "TKT-R").2.getTicket "uuid-0").map (·.status) = some "assigned") := by
  refine ⟨by decide, by decide, by decide⟩

/-- **C7 counterexample.**  In a five-row batch whose third data row has
an invalid email, the single error entry reports row 4 — the 0-based
index plus 2, i.e. the CSV line number counting the header — not row 5
as the claim states. -/
theorem import_error_row_offset_cex :
    (processImport initMemStorage fiveRowBatch importIds importQr).1.imported = 4 ∧
    (processImport initMemStorage fiveRowBatch importIds importQr).1.errors.map
      (·.row) = [4] ∧
    ((processImport initMemStorage fiveRowBatch importIds importQr).1.errors.map
      (·.row)).contains 5 = false := by
  refine ⟨by decide, by decide, by decide⟩

/-- **C5.**  The seat-claim operation validates in exactly the order
ticket-exists → seat-exists → seat-unoccupied → ticket-has-no-seat,
returning the distinct reason of the first violated check; on any failed
check no mutation is performed (the in-memory store is returned
unchanged, likewise the sheets backend absent injected network
failures); only when all four checks pass does it report success, with
both the seat and ticket mutations applied.  The four reasons are
pairwise distinct. -/
theorem claim_validation_order (s : MemStorage) (tid sn tfs : String) :
    ((s.performSeatAssignment tid sn tfs).1.error =
      specClaimOutcome (s.tickets.lookup tid) (s.seats.lookup sn)) ∧
    (specClaimOutcome (s.tickets.lookup tid) (s.seats.lookup sn) ≠ none →
      (s.performSeatAssignment tid sn tfs).1.success = false ∧
      (s.performSeatAssignment tid sn tfs).2 = s) ∧
    (specClaimOutcome (s.tickets.lookup tid) (s.seats.lookup sn) = none →
      (s.performSeatAssignment tid sn tfs).1.success = true ∧
      ∃ t se, s.tickets.lookup tid = some t ∧ s.seats.lookup sn = some se ∧
        (s.performSeatAssignment tid sn tfs).2.seats.lookup sn =
          some { se with isOccupied := true, ticketId := some tfs } ∧
        (s.performSeatAssignment tid sn tfs).2.tickets.lookup tid =
          some { t with seatNumber := some sn, status := "assigned",
                        assignedAt := some s.now }) ∧
    (∀ (st : SheetsState) (failAt : Nat → Bool) (now2 : Nat), (∀ n, failAt n = false) →
      ((st.assignSeatAtomically tid sn tfs failAt now2).1.error =
        specClaimOutcome (st.getTicket tid) (st.getSeat sn)) ∧
      (specClaimOutcome (st.getTicket tid) (st.getSeat sn) ≠ none →
        (st.assignSeatAtomically tid sn tfs failAt now2).1.success = false ∧
        (st.assignSeatAtomically tid sn tfs failAt now2).2 = st)) ∧
    (["Ticket not found", "Seat not found", "Seat is already occupied",
      "Ticket already has a seat assigned"] : List String).Pairwise (· ≠ ·) := by
  refine ⟨performSeatAssignment_error_eq s tid sn tfs,
    performSeatAssignment_frame s tid sn tfs,
    performSeatAssignment_success s tid sn tfs,
    fun st failAt now2 hfail =>
      ⟨sheetsAssign_error_eq st tid sn tfs failAt now2 hfail,
       sheetsAssign_frame st tid sn tfs failAt now2 hfail⟩,
    by decide⟩

/-- Witness for C5: in a concrete store holding a pending ticket and a
free seat B-02, all four checks pass and the claim succeeds with both
records updated. -/
theorem claim_validation_order_witness :
    (wMem.performSeatAssignment "t1" "B-02" "TKT-W").1.success = true ∧
    (wMem.performSeatAssignment "t1" "B-02" "TKT-W").2.seats.lookup "B-02" =
      some { wSeatFree with isOccupied := true, ticketId := some "TKT-W" } := by
  have h := (claim_validation_order wMem "t1" "B-02" "TKT-W").2.2.1 (by decide)
  obtain ⟨hsucc, t, se, ht, hs, hseat, -⟩ := h
  have ht2 : t = wTicket := by
    have : wMem.tickets.lookup "t1" = some wTicket := by decide
    rw [this] at ht; exact (Option.some.injEq _ _).mp ht.symm
  have hs2 : se = wSeatFree := by
    have : wMem.seats.lookup "B-02" = some wSeatFree := by decide
    rw [this] at hs; exact (Option.some.injEq _ _).mp hs.symm
  subst hs2
  exact ⟨hsucc, hseat⟩

/-- **C6.**  Claiming an already-occupied seat on behalf of any existing
ticket fails with the seat-already-occupied conflict reason and returns
the store completely unchanged — in particular the holder's ticket
record and the seat record are untouched, and repeated re-claim attempts
can never mutate any state.  Both backends behave identically (the
sheets backend absent injected network failures). -/
theorem occupied_seat_reclaim_conflict :
    (∀ (s : MemStorage) (tid sn tfs : String) (t : Ticket) (se : Seat),
      s.tickets.lookup tid = some t → s.seats.lookup sn = some se → se.isOccupied = true →
      s.performSeatAssignment tid sn tfs = (claimErr "Seat is already occupied", s)) ∧
    (∀ (st : SheetsState) (tid sn tfs : String) (failAt : Nat → Bool) (now2 : Nat)
       (t : Ticket) (se : Seat), (∀ n, failAt n = false) →
      st.getTicket tid = some t → st.getSeat sn = some se → se.isOccupied = true →
      st.assignSeatAtomically tid sn tfs failAt now2 =
        (claimErr "Seat is already occupied", st)) := by
  constructor
  · intro s tid sn tfs t se ht hs ho
    simp [MemStorage.performSeatAssignment, ht, hs, ho]
  · intro st tid sn tfs failAt now2 t se hfail ht hs ho
    simp [SheetsState.assignSeatAtomically, ht, hs, ho, hfail]

/-- Witness for C6: re-claiming the occupied seat C-03 for the pending
ticket fails with the conflict reason and leaves the concrete store
unchanged. -/
theorem occupied_seat_reclaim_conflict_witness :
    wMem.performSeatAssignment "t1" "C-03" "TKT-W" =
      (claimErr "Seat is already occupied", wMem) :=
  occupied_seat_reclaim_conflict.1 wMem "t1" "C-03" "TKT-W" wTicket wSeatOcc
    (by decide) (by decide) (by decide)

/-- **C3** (amended).  Neither backend ever reports success without both
mutations applied: on success the final state holds the occupied seat
record and the assigned ticket record.  On failure the in-memory backend
returns the store unchanged (its rollback branch guards operations that
cannot throw).  The sheets backend, however, attempts no compensation:
on failure its ticket record is never modified, and the state is either
fully unchanged or — reported as the internal error — retains the
already-applied seat update. -/
theorem claim_mutation_pairing :
    (∀ (s : MemStorage) (tid sn tfs : String),
      ((s.performSeatAssignment tid sn tfs).1.success = false →
        (s.performSeatAssignment tid sn tfs).2 = s) ∧
      ((s.performSeatAssignment tid sn tfs).1.success = true →
        ∃ t se, s.tickets.lookup tid = some t ∧ s.seats.lookup sn = some se ∧
          (s.performSeatAssignment tid sn tfs).2.seats.lookup sn = some (occupySeat se tfs) ∧
          (s.performSeatAssignment tid sn tfs).2.tickets.lookup tid =
            some (assignTicket t sn s.now))) ∧
    (∀ (st : SheetsState) (tid sn tfs : String) (failAt : Nat → Bool) (now2 : Nat),
      ((st.assignSeatAtomically tid sn tfs failAt now2).1.success = true →
        ∃ t se, st.getTicket tid = some t ∧ st.getSeat sn = some se ∧
          (st.assignSeatAtomically tid sn tfs failAt now2).2.getSeat sn =
            some (occupySeat se tfs) ∧
          (st.assignSeatAtomically tid sn tfs failAt now2).2.getTicket tid =
            some (assignTicket t sn now2)) ∧
      ((st.assignSeatAtomically tid sn tfs failAt now2).1.success = false →
        (st.assignSeatAtomically tid sn tfs failAt now2).2.tickets = st.tickets ∧
        ((st.assignSeatAtomically tid sn tfs failAt now2).2 = st ∨
         (st.assignSeatAtomically tid sn tfs failAt now2).1.error = some internalErrMsg))) := by
  refine ⟨fun s tid sn tfs => ⟨?_, ?_⟩, fun st tid sn tfs failAt now2 => ⟨?_, ?_⟩⟩
  · intro hf
    by_cases h : specClaimOutcome (s.tickets.lookup tid) (s.seats.lookup sn) = none
    · have hsucc := (performSeatAssignment_success_iff s tid sn tfs).mpr h
      rw [hsucc] at hf
      cases hf
    · exact (performSeatAssignment_frame s tid sn tfs h).2
  · intro hsucc
    have h := (performSeatAssignment_success_iff s tid sn tfs).mp hsucc
    obtain ⟨-, t, se, ht, hs, h1, h2⟩ := performSeatAssignment_success s tid sn tfs h
    exact ⟨t, se, ht, hs, h1, h2⟩
  · intro hsucc
    rcases sheetsAssign_shape st tid sn tfs failAt now2 with ⟨msg, heq⟩ |
      ⟨t, se, ht, hs, ho, hn, heq | heq⟩
    · rw [heq] at hsucc; simp [claimErr] at hsucc
    · rw [heq] at hsucc; simp [claimErr] at hsucc
    · refine ⟨t, se, ht, hs, ?_, ?_⟩
      · rw [heq]
        have hs2 : st.seats.find? (fun x => x.seatNumber == sn) = some se := hs
        have hv : ((occupySeat se tfs).seatNumber == sn) = true := by
          simpa [occupySeat] using List.find?_some hs2
        exact find?_replaceFirstBy (fun x => x.seatNumber == sn) (occupySeat se tfs) se hv hs2
      · rw [heq]
        have ht2 : st.tickets.find? (fun x => x.id == tid) = some t := ht
        have hv : ((assignTicket t sn now2).id == tid) = true := by
          simpa [assignTicket] using List.find?_some ht2
        exact find?_replaceFirstBy (fun x => x.id == tid) (assignTicket t sn now2) t hv ht2
  · intro hfl
    rcases sheetsAssign_shape st tid sn tfs failAt now2 with ⟨msg, heq⟩ |
      ⟨t, se, ht, hs, ho, hn, heq | heq⟩
    · rw [heq]; exact ⟨rfl, Or.inl rfl⟩
    · rw [heq]; exact ⟨rfl, Or.inr rfl⟩
    · rw [heq] at hfl; simp at hfl

/-- Witness for C3: with no injected failures the sheets claim succeeds
and both records are updated in the concrete sheet state. -/
theorem claim_mutation_pairing_witness :
    ∃ t se, shState.getTicket "t1" = some t ∧ shState.getSeat "A-01" = some se ∧
      (shState.assignSeatAtomically "t1" "A-01" "TKT-3" (fun _ => false) 5).2.getSeat "A-01" =
        some (occupySeat se "TKT-3") ∧
      (shState.assignSeatAtomically "t1" "A-01" "TKT-3" (fun _ => false) 5).2.getTicket "t1" =
        some (assignTicket t "A-01" 5) :=
  (claim_mutation_pairing.2 shState "t1" "A-01" "TKT-3" (fun _ => false) 5).1 (by decide)

/-- Position of a status along the pending → assigned → checked-in
chain; strings outside the chain sit at the bottom. -/
def statusRank (st : String) : Nat :=
  if st == "checked-in" then 2 else if st == "assigned" then 1 else 0

/-- Every checked-in ticket holds a (truthy) seat reference.  This is
exactly the well-formedness property that tickets created through the
documented paths satisfy, and whose absence enables the C9
counterexample. -/
def checkedInHasSeat (s : MemStorage) : Prop :=
  ∀ p ∈ s.tickets, p.2.status = "checked-in" → optTruthy p.2.seatNumber = true

/-- The ticket record as written by a successful check-in. -/
def checkinTicket (t : Ticket) (now : Nat) : Ticket :=
  { t with status := "checked-in", checkedInAt := some now }

theorem statusRank_le_two (st : String) : statusRank st ≤ 2 := by
  unfold statusRank
  split
  · exact Nat.le_refl 2
  · split
    · exact Nat.le_succ 1
    · exact Nat.zero_le 2

theorem statusRank_le_one_of_ne (st : String) (h : st ≠ "checked-in") :
    statusRank st ≤ 1 := by
  unfold statusRank
  split
  · next hc => exact absurd (by simpa using hc) h
  · split
    · exact Nat.le_refl 1
    · exact Nat.zero_le 1

/-- The check-in handler either leaves the store unchanged or replaces
exactly the looked-up ticket by its checked-in version. -/
theorem checkinHandler_state (s : MemStorage) (id : String) :
    (checkinHandler s id).2 = s ∨
    ∃ t, s.tickets.lookup (jsTrim id) = some t ∧ t.status ≠ "checked-in" ∧
      t.status ≠ "pending" ∧
      (checkinHandler s id).2 =
        { s with tickets := alistSet (jsTrim id) (checkinTicket t s.now) s.tickets } := by
  by_cases he : (jsTrim id == "") = true
  · exact Or.inl (by simp [checkinHandler, he])
  rcases ht : s.tickets.lookup (jsTrim id) with _ | t
  · exact Or.inl (by simp [checkinHandler, he, ht])
  by_cases hc : (t.status == "checked-in") = true
  · exact Or.inl (by simp [checkinHandler, he, ht, hc])
  by_cases hp : (t.status == "pending") = true
  · exact Or.inl (by simp [checkinHandler, he, ht, hc, hp])
  refine Or.inr ⟨t, rfl, by simpa using hc, by simpa using hp, ?_⟩
  simp [checkinHandler, he, ht, hc, hp, MemStorage.updateTicket, Ticket.applyUpd,
    checkinTicket]

/-- The claim operation either leaves the store unchanged or replaces
exactly the looked-up seat and ticket; its ticket precondition includes
a falsy `seatNumber`. -/
theorem performSeatAssignment_state (s : MemStorage) (tid sn tfs : String) :
    (s.performSeatAssignment tid sn tfs).2 = s ∨
    ∃ t se, s.tickets.lookup tid = some t ∧ s.seats.lookup sn = some se ∧
      optTruthy t.seatNumber = false ∧
      (s.performSeatAssignment tid sn tfs).2 =
        { s with seats := alistSet sn (occupySeat se tfs) s.seats
                 tickets := alistSet tid (assignTicket t sn s.now) s.tickets } := by
  rcases ht : s.tickets.lookup tid with _ | t
  · exact Or.inl (by simp [MemStorage.performSeatAssignment, ht])
  rcases hs : s.seats.lookup sn with _ | se
  · exact Or.inl (by simp [MemStorage.performSeatAssignment, ht, hs])
  by_cases ho : se.isOccupied
  · exact Or.inl (by simp [MemStorage.performSeatAssignment, ht, hs, ho])
  by_cases hn : optTruthy t.seatNumber
  · exact Or.inl (by simp [MemStorage.performSeatAssignment, ht, hs, ho, hn])
  refine Or.inr ⟨t, se, rfl, rfl, by simpa using hn, ?_⟩
  simp [MemStorage.performSeatAssignment, ht, hs, ho, hn, occupySeat, assignTicket]

/-- **C9** (amended).  Check-in fails with an error and no state change
exactly when the ticket is already checked-in or still pending, and when
the ticket is assigned (or carries any other non-terminal status) it is
stamped checked-in with `checkedInAt` set.  Check-in never lowers any
ticket's status rank, and the seat claim never lowers one either
provided every checked-in ticket holds a seat — the proviso the original
claim lacks, since a ticket created with status `checked-in` and no seat
is regressed by a claim (see the counterexample). -/
theorem checkin_transitions :
    (∀ (s : MemStorage) (id : String) (t : Ticket), jsTrim id ≠ "" →
      s.tickets.lookup (jsTrim id) = some t →
      ((t.status = "checked-in" →
        checkinHandler s id = (.err 400 "Ticket already checked in", s)) ∧
       (t.status = "pending" →
        checkinHandler s id = (.err 400 "Cannot check in ticket without assigned seat", s)) ∧
       (t.status ≠ "checked-in" → t.status ≠ "pending" →
        checkinHandler s id =
          (.ok (checkinTicket t s.now),
           { s with tickets := alistSet (jsTrim id) (checkinTicket t s.now) s.tickets })))) ∧
    (∀ (s : MemStorage) (id pid : String) (pt pt2 : Ticket),
      s.tickets.lookup pid = some pt →
      (checkinHandler s id).2.tickets.lookup pid = some pt2 →
      statusRank pt.status ≤ statusRank pt2.status) ∧
    (∀ (s : MemStorage) (tid sn tfs pid : String) (pt pt2 : Ticket),
      checkedInHasSeat s →
      s.tickets.lookup pid = some pt →
      (s.performSeatAssignment tid sn tfs).2.tickets.lookup pid = some pt2 →
      statusRank pt.status ≤ statusRank pt2.status) := by
  refine ⟨?_, ?_, ?_⟩
  · intro s id t hne ht
    have he : (jsTrim id == "") = false := by simpa using hne
    refine ⟨?_, ?_, ?_⟩
    · intro hst; simp [checkinHandler, he, ht, hst]
    · intro hst; simp [checkinHandler, he, ht, hst]
    · intro h1 h2
      have hc : (t.status == "checked-in") = false := by simpa using h1
      have hp : (t.status == "pending") = false := by simpa using h2
      simp [checkinHandler, he, ht, hc, hp, MemStorage.updateTicket, Ticket.applyUpd,
        checkinTicket]
  · intro s id pid pt pt2 hpt hpt2
    rcases checkinHandler_state s id with hstate | ⟨t, ht, -, -, hstate⟩
    · rw [hstate] at hpt2
      rw [hpt] at hpt2
      cases hpt2
      exact Nat.le_refl _
    · rw [hstate] at hpt2
      by_cases hpid : pid = jsTrim id
      · subst hpid
        rw [lookup_alistSet_self] at hpt2
        cases hpt2
        rw [hpt] at ht
        cases ht
        exact le_trans (statusRank_le_two pt.status) (by simp [checkinTicket, statusRank])
      · rw [lookup_alistSet_ne _ _ _ _ hpid] at hpt2
        rw [hpt] at hpt2
        cases hpt2
        exact Nat.le_refl _
  · intro s tid sn tfs pid pt pt2 hwf hpt hpt2
    rcases performSeatAssignment_state s tid sn tfs with hstate | ⟨t, se, ht, hs, hn, hstate⟩
    · rw [hstate] at hpt2
      rw [hpt] at hpt2
      cases hpt2
      exact Nat.le_refl _
    · rw [hstate] at hpt2
      by_cases hpid : pid = tid
      · subst hpid
        rw [lookup_alistSet_self] at hpt2
        cases hpt2
        rw [hpt] at ht
        cases ht
        have hne : pt.status ≠ "checked-in" := by
          intro hcontra
          have := hwf (pid, pt) (mem_of_lookup_eq_some hpt) hcontra
          rw [this] at hn
          cases hn
        exact le_trans (statusRank_le_one_of_ne pt.status hne)
          (by simp [assignTicket, statusRank])
      · rw [lookup_alistSet_ne _ _ _ _ hpid] at hpt2
        rw [hpt] at hpt2
        cases hpt2
        exact Nat.le_refl _

/-- Witness for C9: checking in the concrete assigned ticket h1 succeeds
and stamps it checked-in. -/
theorem checkin_transitions_witness :
    checkinHandler wMem "h1" =
      (.ok (checkinTicket wHolder wMem.now),
       { wMem with tickets := (alistSet (jsTrim "h1") (checkinTicket wHolder wMem.now)
                     wMem.tickets) }) :=
  ((checkin_transitions.1 wMem "h1" wHolder (by decide) (by decide)).2.2
    (by decide) (by decide))

/-- Any error entry the import step emits for record `r` at 0-based
index `i` carries row number `i + 2` and the record itself as `data`. -/
theorem importStep_errors_mem (seatMap : List (String × Seat)) (ids : Nat → String)
    (qr : String → String) (i : Nat) (r : ImportRecord) (acc : ImportResults)
    (st : MemStorage) :
    ∀ e ∈ (importStep seatMap ids qr i r acc st).1.errors,
      e ∈ acc.errors ∨ (e.row = i + 2 ∧ e.data = r) := by
  intro e he
  simp only [importStep, pushErr] at he
  repeat' split at he
  all_goals
    first
      | exact Or.inl he
      | (simp only [List.mem_append, List.mem_singleton] at he
         rcases he with he | he
         · exact Or.inl he
         · exact Or.inr (by simp [he]))

/-- Every error entry produced by the import loop started at index `i`
either was already accumulated or reports some record index `j` in range
as row `j + 2`, carrying that record as its data. -/
theorem importLoop_errors_rows (seatMap : List (String × Seat)) (ids : Nat → String)
    (qr : String → String) :
    ∀ (rs : List ImportRecord) (i : Nat) (acc : ImportResults) (st : MemStorage),
      ∀ e ∈ (importLoop seatMap ids qr i rs acc st).1.errors,
        e ∈ acc.errors ∨ ∃ j, i ≤ j ∧ j < i + rs.length ∧ e.row = j + 2 ∧
          rs[j - i]? = some e.data := by
  intro rs
  induction rs with
  | nil =>
    intro i acc st e he
    simp only [importLoop] at he
    exact Or.inl he
  | cons r rest ih =>
    intro i acc st e he
    rcases hstep : importStep seatMap ids qr i r acc st with ⟨acc2, st2⟩
    simp only [importLoop, hstep] at he
    rcases ih (i + 1) acc2 st2 e he with he2 | ⟨j, hj1, hj2, hj3, hj4⟩
    · have hmem : e ∈ (importStep seatMap ids qr i r acc st).1.errors := by
        rw [hstep]; exact he2
      rcases importStep_errors_mem seatMap ids qr i r acc st e hmem with h | ⟨hrow, hdata⟩
      · exact Or.inl h
      · refine Or.inr ⟨i, Nat.le_refl i, by simp [List.length_cons], hrow, ?_⟩
        simp [hdata]
    · refine Or.inr ⟨j, by omega, ?_, hj3, ?_⟩
      · simp only [List.length_cons]
        omega
      · have hk : j - i = (j - (i + 1)) + 1 := by omega
        rw [hk]
        simpa using hj4

/-- **C7** (amended).  Per-row import errors report the 0-based record
index `j` as row `j + 2` — equivalently, 1-indexed data row `r` is
reported as row `r + 1`, its line number in the CSV file counting the
header — each entry carrying the offending record as its data (the
original claim's `i + 2` for 1-indexed `i` is off by one, see the
counterexample).  Concretely, a 5-row batch whose third data row has an
invalid email yields `imported = 4`, exactly one error entry with
row 4 referencing row 3's original data, and the other four tickets
fully created. -/
theorem import_error_row_numbering :
    (∀ (st : MemStorage) (records : List ImportRecord) (ids : Nat → String)
       (qr : String → String) (e : ImportError),
       e ∈ (processImport st records ids qr).1.errors →
       ∃ j, j < records.length ∧ e.row = j + 2 ∧ records[j]? = some e.data) ∧
    ((processImport initMemStorage fiveRowBatch importIds importQr).1.imported = 4 ∧
     (processImport initMemStorage fiveRowBatch importIds importQr).1.errors =
       [{ row := 4, error := "Missing or invalid email address",
          data := importRecNamed "G3" "invalid" }] ∧
     (processImport initMemStorage fiveRowBatch importIds importQr).2.tickets.length = 4 ∧
     ((processImport initMemStorage fiveRowBatch importIds importQr).2.tickets.map
       fun p => p.2.guestName) = ["G1", "G2", "G4", "G5"]) := by
  constructor
  · intro st records ids qr e he
    simp only [processImport] at he
    rcases importLoop_errors_rows st.seats ids qr records 0
        { imported := 0, seatsAssigned := 0, errors := [] } st e he with h |
        ⟨j, hj1, hj2, hj3, hj4⟩
    · simp at h
    · refine ⟨j, by omega, hj3, ?_⟩
      simpa using hj4
  · refine ⟨by decide, by decide, by decide, by decide⟩

/-- Witness for C7: the five-row batch's single error entry indeed sits
at a valid record index with correctly offset row number. -/
theorem import_error_row_numbering_witness :
    ∃ j, j < fiveRowBatch.length ∧
      ({ row := 4, error := "Missing or invalid email address",
         data := importRecNamed "G3" "invalid" } : ImportError).row = j + 2 ∧
      fiveRowBatch[j]? = some (importRecNamed "G3" "invalid") := by
  have h := import_error_row_numbering.1 initMemStorage fiveRowBatch importIds importQr
    { row := 4, error := "Missing or invalid email address",
      data := importRecNamed "G3" "invalid" }
    (by decide)
  simpa using h

/-- **C4** (amended).  `createTicket` assigns the fresh store id,
defaults `status` to pending when unset (or the empty string), defaults
`seatNumber` to null when unset (or the empty string), stamps
`purchaseDate` with the current time, leaves `assignedAt` and
`checkedInAt` null — and performs no duplicate-`ticketId` check at all:
it unconditionally appends the new ticket, so a draft whose `ticketId`
already exists is inserted anyway (see the counterexample; the original
claim's Conflict failure does not exist in the code). -/
theorem createTicket_defaults (s : MemStorage) (d : InsertTicket)
    (hfresh : s.tickets.lookup (uuid s.nextId) = none) :
    ((s.createTicket d).1.id = uuid s.nextId) ∧
    (d.status = none ∨ d.status = some "" → (s.createTicket d).1.status = "pending") ∧
    (∀ st, d.status = some st → st ≠ "" → (s.createTicket d).1.status = st) ∧
    (optTruthy d.seatNumber = false → (s.createTicket d).1.seatNumber = none) ∧
    (optTruthy d.seatNumber = true → (s.createTicket d).1.seatNumber = d.seatNumber) ∧
    ((s.createTicket d).1.ticketId = d.ticketId) ∧
    ((s.createTicket d).1.purchaseDate = s.now) ∧
    ((s.createTicket d).1.assignedAt = none) ∧
    ((s.createTicket d).1.checkedInAt = none) ∧
    ((s.createTicket d).2.tickets = s.tickets ++ [(uuid s.nextId, (s.createTicket d).1)]) := by
  refine ⟨rfl, ?_, ?_, ?_, ?_, rfl, rfl, rfl, rfl, ?_⟩
  · rintro (h | h) <;> simp [MemStorage.createTicket, h]
  · intro st hst hne
    simp [MemStorage.createTicket, hst, hne]
  · intro h; simp [MemStorage.createTicket, h]
  · intro h; simp [MemStorage.createTicket, h]
  · exact alistSet_of_lookup_none (uuid s.nextId) (s.createTicket d).1 s.tickets hfresh

/-- Witness for C4: creating a ticket from the no-status draft in the
concrete store defaults its status to pending and appends it. -/
theorem createTicket_defaults_witness :
    (wMem.createTicket dupDraft).1.status = "pending" ∧
    (wMem.createTicket dupDraft).2.tickets =
      wMem.tickets ++ [(uuid wMem.nextId, (wMem.createTicket dupDraft).1)] := by
  have h := createTicket_defaults wMem dupDraft (by decide)
  exact ⟨h.2.1 (Or.inl rfl), h.2.2.2.2.2.2.2.2.2⟩

/-- **C10.**  The scan handler resolves its (trimmed, length-bounded)
input first by exact match on a stored `qrCode`; only when that lookup
misses and the input has the strict `TKT-dddd-dddddd-ddd` shape does it
fall back to a lookup by `ticketId`; otherwise — in particular for a
bare ticket code in any nonstandard format, even one some ticket
carries as its `ticketId` — it reports not-found. -/
theorem scan_resolution_order (s : MemStorage) (qrData : String) :
    (jsTake (jsTrim qrData) 500).length ≠ 0 →
    ((∀ p, s.tickets.find? (fun q => q.2.qrCode == jsTake (jsTrim qrData) 500) = some p →
       scanHandler s qrData = .found p.2) ∧
     (s.tickets.find? (fun q => q.2.qrCode == jsTake (jsTrim qrData) 500) = none →
      ticketIdFormatTest (jsTake (jsTrim qrData) 500) = true →
      ((∀ p, s.tickets.find? (fun q => q.2.ticketId == jsTake (jsTrim qrData) 500) = some p →
         scanHandler s qrData = .found p.2) ∧
       (s.tickets.find? (fun q => q.2.ticketId == jsTake (jsTrim qrData) 500) = none →
        scanHandler s qrData = .notFound "Invalid QR code or ticket not found"))) ∧
     (s.tickets.find? (fun q => q.2.qrCode == jsTake (jsTrim qrData) 500) = none →
      ticketIdFormatTest (jsTake (jsTrim qrData) 500) = false →
      scanHandler s qrData = .notFound "Invalid QR code or ticket not found")) := by
  intro hlen
  have hz : ((jsTake (jsTrim qrData) 500).length == 0) = false := by simpa using hlen
  refine ⟨?_, ?_, ?_⟩
  · intro p hp
    simp [scanHandler, hz, MemStorage.getTicketByQRCode, hp]
  · intro hq hfmt
    refine ⟨?_, ?_⟩
    · intro p hp
      simp [scanHandler, hz, MemStorage.getTicketByQRCode, MemStorage.getTicketByTicketId,
        hq, hfmt, hp]
    · intro hid
      simp [scanHandler, hz, MemStorage.getTicketByQRCode, MemStorage.getTicketByTicketId,
        hq, hfmt, hid]
  · intro hq hfmt
    simp [scanHandler, hz, MemStorage.getTicketByQRCode, hq, hfmt]

/-- Witness for C10: the input TKT-W is a stored `ticketId` but matches
no stored `qrCode` and is not in the strict ticket-code format, so the
scan reports not-found. -/
theorem scan_resolution_order_witness :
    scanHandler wMem "TKT-W" = .notFound "Invalid QR code or ticket not found" :=
  ((scan_resolution_order wMem "TKT-W") (by decide)).2.2 (by decide) (by decide)

end CVM
